/-
Verification of the food-delivery booking lifecycle and OTP service.

Shallow embedding of the Python source:
  * core/models.py        : Booking, BookingStatusLog, Booking.can_chat
  * core/helpers.py       : role predicates, can_cancel_booking,
                            can_update_booking_status
  * administrator/views.py: AssignBookingView.post
  * delivery_partner/views.py: UpdateBookingStatusView.post
  * customer/views.py     : CreateBookingView.post, CancelBookingView.post
  * core/utils/otp_manager.py: OTPManager (create_otp / verify_otp)

Django-specific machinery (permission mixins, redirects, templates) is out
of scope; each view's `post` body is embedded as a pure function on the
booking row, its status-log list, and explicit inputs.  `messages.error`
and `Http404` become an error field; `timezone.now()` becomes an explicit
`now : Nat` argument.  The Redis cache used by OTPManager becomes a record
of the three sub-keys, each an optional (value, timeout-at-set) pair;
passive TTL expiry is the store's behaviour, not the code's, and is not
modelled.
-/
import Mathlib

/-- Booking status enum, from BOOKING_STATUS_CHOICES in core/models.py. -/
inductive Status where
  | pending
  | assigned
  | started
  | reached
  | collected
  | delivered
  | cancelled
deriving DecidableEq, Repr

/-- The string stored in the status column for each enum member. -/
def Status.toStr : Status → String
  | .pending => "pending"
  | .assigned => "assigned"
  | .started => "started"
  | .reached => "reached"
  | .collected => "collected"
  | .delivered => "delivered"
  | .cancelled => "cancelled"

/-- A user row (core/models.py User): the fields the booking logic reads.
`is_authenticated` is Django's request-user flag (False for AnonymousUser). -/
structure UserM where
  id : Nat
  role : String
  is_active : Bool
  is_superuser : Bool
  is_authenticated : Bool
  first_name : Option String
  last_name : Option String
  mobile_number : String
deriving DecidableEq, Repr

/-- User.get_full_name from core/models.py. -/
def UserM.get_full_name (u : UserM) : String :=
  match u.first_name, u.last_name with
  | some f, some l => f ++ " " ++ l
  | _, _ => u.mobile_number

/-- A booking row (core/models.py Booking).  The delivery-partner foreign
key is kept as the referenced user id; timestamps are `Option Nat`. -/
structure Booking where
  customer_id : Nat
  delivery_partner : Option Nat
  pickup_address : String
  delivery_address : String
  customer_notes : String
  status : Status
  assigned_at : Option Nat
  started_at : Option Nat
  reached_at : Option Nat
  collected_at : Option Nat
  delivered_at : Option Nat
  cancelled_at : Option Nat
  cancellation_reason : Option String
deriving DecidableEq, Repr

/-- One BookingStatusLog row (core/models.py): status value, acting user
id (nullable), free-text notes. -/
structure LogEntry where
  status : Status
  changed_by : Option Nat
  notes : String
deriving DecidableEq, Repr

/-- Booking.can_chat from core/models.py: partner assigned and status in
[assigned, started, reached, collected]. -/
def Booking.can_chat (b : Booking) : Bool :=
  b.delivery_partner.isSome &&
    (b.status == .assigned || b.status == .started ||
     b.status == .reached || b.status == .collected)

/-- Python str.strip(): drop leading and trailing whitespace.  (Defined
over the character list so that it evaluates by kernel reduction.) -/
def pyStrip (s : String) : String :=
  String.mk (((s.data.dropWhile Char.isWhitespace).reverse.dropWhile
    Char.isWhitespace).reverse)

/-- helpers.is_admin_user. -/
def is_admin_user (u : UserM) : Bool :=
  u.is_authenticated && (u.role == "admin" || u.is_superuser)

/-- helpers.is_customer. -/
def is_customer (u : UserM) : Bool :=
  u.is_authenticated && u.role == "customer"

/-- helpers.is_delivery_partner. -/
def is_delivery_partner (u : UserM) : Bool :=
  u.is_authenticated && u.role == "delivery_partner"

/-- helpers.can_cancel_booking: only the owning customer, and only while
the status is not delivered or cancelled. -/
def can_cancel_booking (u : UserM) (b : Booking) : Bool :=
  if !(is_customer u) || b.customer_id != u.id then false
  else if b.status == .delivered || b.status == .cancelled then false
  else true

/-- helpers.can_update_booking_status: admins always; a delivery partner
only on a booking assigned to them.  The current status is not consulted. -/
def can_update_booking_status (u : UserM) (b : Booking) : Bool :=
  if is_admin_user u then true
  else if is_delivery_partner u && b.delivery_partner == some u.id then true
  else false

/-- Outcome of a mutating view: the booking row and log list after the
request, plus the error message when the request was rejected (in which
case nothing was saved, so the row and log are returned unchanged). -/
structure ViewResult where
  booking : Booking
  log : List LogEntry
  error : Option String
deriving DecidableEq, Repr

/-- AssignBookingView.post (administrator/views.py).  `users` is the User
table; `dpid` is POST delivery_partner_id, with `none` covering both a
missing and an empty value (Python `if not delivery_partner_id`).
`get_object_or_404(User, id=dpid, role='delivery_partner')` filters on id
and role only, and raises Http404 when no row matches. -/
def assignBookingPost (users : List UserM) (request_user : UserM)
    (b : Booking) (log : List LogEntry) (dpid : Option Nat) (now : Nat) :
    ViewResult :=
  match dpid with
  | none => ⟨b, log, some "Please select a delivery partner"⟩
  | some i =>
    match users.find? (fun u => u.id == i && u.role == "delivery_partner") with
    | none => ⟨b, log, some "Http404"⟩
    | some dp =>
      let b' := { b with delivery_partner := some dp.id,
                         status := .assigned,
                         assigned_at := some now }
      ⟨b', log ++ [⟨.assigned, some request_user.id,
                    "Assigned to " ++ dp.get_full_name⟩], none⟩

/-- UpdateBookingStatusView.post (delivery_partner/views.py).  The target
status and notes arrive as POST strings and are stripped; the target must
be one of started/reached/collected/delivered (set membership only — the
current status is never read); the matching timestamp is stamped and one
log row is appended. -/
def updateBookingStatusPost (request_user : UserM) (b : Booking)
    (log : List LogEntry) (status_in : String) (notes_in : String)
    (now : Nat) : ViewResult :=
  if !(can_update_booking_status request_user b) then
    ⟨b, log, some "You cannot update this booking status"⟩
  else
    let new_status := pyStrip status_in
    let notes := pyStrip notes_in
    if new_status == "started" then
      ⟨{ b with status := .started, started_at := some now },
       log ++ [⟨.started, some request_user.id, notes⟩], none⟩
    else if new_status == "reached" then
      ⟨{ b with status := .reached, reached_at := some now },
       log ++ [⟨.reached, some request_user.id, notes⟩], none⟩
    else if new_status == "collected" then
      ⟨{ b with status := .collected, collected_at := some now },
       log ++ [⟨.collected, some request_user.id, notes⟩], none⟩
    else if new_status == "delivered" then
      ⟨{ b with status := .delivered, delivered_at := some now },
       log ++ [⟨.delivered, some request_user.id, notes⟩], none⟩
    else
      ⟨b, log, some "Invalid status"⟩

/-- CancelBookingView.post (customer/views.py): guarded by
can_cancel_booking; on success sets cancelled, stamps cancelled_at,
stores the stripped reason, appends one log row. -/
def cancelBookingPost (request_user : UserM) (b : Booking)
    (log : List LogEntry) (reason_in : String) (now : Nat) : ViewResult :=
  if !(can_cancel_booking request_user b) then
    ⟨b, log, some "You cannot cancel this booking"⟩
  else
    let reason := pyStrip reason_in
    ⟨{ b with status := .cancelled,
              cancelled_at := some now,
              cancellation_reason := some reason },
     log ++ [⟨.cancelled, some request_user.id, reason⟩], none⟩

/-- CreateBookingView.post (customer/views.py): rejects when either
stripped address is empty; otherwise creates a pending booking with no
partner and one pending log row. -/
def createBookingPost (request_user : UserM) (pickup_in delivery_in
    notes_in : String) : Option (Booking × LogEntry) :=
  let pickup := pyStrip pickup_in
  let delivery := pyStrip delivery_in
  let notes := pyStrip notes_in
  if pickup == "" || delivery == "" then none
  else
    some ({ customer_id := request_user.id,
            delivery_partner := none,
            pickup_address := pickup,
            delivery_address := delivery,
            customer_notes := notes,
            status := .pending,
            assigned_at := none, started_at := none, reached_at := none,
            collected_at := none, delivered_at := none, cancelled_at := none,
            cancellation_reason := none },
          ⟨.pending, some request_user.id, "Booking created"⟩)

/-
OTP service, from core/utils/otp_manager.py.  The Redis cache for one
mobile number is three sub-keys; we record each as an optional pair of
the stored value and the timeout passed to `cache.set`.  `cache.ttl` on a
failure path is rendered as the recorded timeout.
-/

/-- One mobile number's slice of the OTP cache: the otp:, otp_attempts:
and otp_verified: sub-keys, each `some (value, timeout)` when set. -/
structure OtpState where
  code : Option (String × Nat)
  attempts : Option (Nat × Nat)
  verified : Option (Bool × Nat)
deriving DecidableEq, Repr

/-- The cache state with no sub-key set. -/
def otpEmpty : OtpState := ⟨none, none, none⟩

/-- OTPManager.OTP_EXPIRY. -/
def OTP_EXPIRY : Nat := 300

/-- OTPManager.MAX_ATTEMPTS. -/
def MAX_ATTEMPTS : Nat := 3

/-- OTPManager.STATIC_OTP. -/
def STATIC_OTP : String := "1234"

/-- OTPManager.generate_otp: the static code when settings.DEBUG is on,
otherwise the 4-digit string drawn from the random source (passed in as
`rand`, the value of `''.join(random.choices(string.digits, k=4))`). -/
def generate_otp (debug : Bool) (rand : String) : String :=
  if debug then STATIC_OTP else rand

/-- Result dict of OTPManager.create_otp. -/
structure CreateResult where
  success : Bool
  otp : Option String
  message : String
  expires_in : Nat
deriving DecidableEq, Repr

/-- OTPManager.create_otp: fail if a code is already stored; otherwise
store a fresh code with a 300 s timeout and clear attempts and verified. -/
def create_otp (s : OtpState) (debug : Bool) (rand : String) :
    CreateResult × OtpState :=
  match s.code with
  | some (_, t) =>
    (⟨false, none, "OTP already sent. Please wait before requesting a new one.", t⟩, s)
  | none =>
    let otp := generate_otp debug rand
    (⟨true, some otp, "OTP generated successfully", OTP_EXPIRY⟩,
     ⟨some (otp, OTP_EXPIRY), none, none⟩)

/-- Result dict of OTPManager.verify_otp. -/
structure VerifyResult where
  success : Bool
  message : String
  attempts_left : Nat
deriving DecidableEq, Repr

/-- OTPManager.verify_otp: no code → expired/not-found; stored attempts
(absent reads 0) at or above MAX_ATTEMPTS → delete code and attempts and
fail; trimmed match → set verified (600 s), delete code and attempts,
succeed; mismatch → increment attempts with a fresh 300 s timeout. -/
def verify_otp (s : OtpState) (submitted : String) :
    VerifyResult × OtpState :=
  match s.code with
  | none =>
    (⟨false, "OTP expired or not found. Please request a new OTP.", 0⟩, s)
  | some (stored, _) =>
    let attempts := (s.attempts.map Prod.fst).getD 0
    if attempts ≥ MAX_ATTEMPTS then
      (⟨false, "Maximum verification attempts exceeded. Please request a new OTP.", 0⟩,
       { s with code := none, attempts := none })
    else if pyStrip submitted == pyStrip stored then
      (⟨true, "OTP verified successfully", MAX_ATTEMPTS⟩,
       { s with code := none, attempts := none, verified := some (true, 600) })
    else
      (⟨false,
        "Invalid OTP. " ++ toString (MAX_ATTEMPTS - (attempts + 1)) ++ " attempts remaining.",
        MAX_ATTEMPTS - (attempts + 1)⟩,
       { s with attempts := some (attempts + 1, OTP_EXPIRY) })

/-- OTPManager.is_verified. -/
def is_verified (s : OtpState) : Bool :=
  ((s.verified.map Prod.fst).getD false)

/-- True when some call in a run of verify_otp invocations (threading the
state, no new code issued in between) succeeds. -/
def anyVerifySucceeds (s : OtpState) : List String → Bool
  | [] => false
  | x :: xs =>
    let (r, s') := verify_otp s x
    r.success || anyVerifySucceeds s' xs

/-
Concrete fixtures used by witnesses and counterexamples.
-/

/-- An administrator account. -/
def adminU : UserM :=
  ⟨1, "admin", true, false, true, some "Ada", some "Admin", "+910000000001"⟩

/-- A customer account (owner of the sample bookings). -/
def custU : UserM :=
  ⟨2, "customer", true, false, true, some "Cus", some "Tomer", "+910000000002"⟩

/-- An active delivery-partner account. -/
def partnerU : UserM :=
  ⟨3, "delivery_partner", true, false, true, some "Del", some "Part", "+910000000003"⟩

/-- A delivery-partner account with is_active = false. -/
def inactivePartnerU : UserM :=
  ⟨4, "delivery_partner", false, false, true, none, none, "+910000000004"⟩

/-- A freshly created booking owned by custU. -/
def pendingB : Booking :=
  ⟨2, none, "12 Pickup St", "34 Drop Ave", "", .pending,
   none, none, none, none, none, none, none⟩

/-- pendingB after assignment to partnerU. -/
def assignedB : Booking :=
  { pendingB with delivery_partner := some 3, status := .assigned,
                  assigned_at := some 10 }

/-- assignedB after the full pipeline has run to delivered (terminal). -/
def deliveredB : Booking :=
  { assignedB with status := .delivered, started_at := some 11,
                   reached_at := some 12, collected_at := some 13,
                   delivered_at := some 14 }

/-- A cancelled (terminal) booking owned by custU. -/
def cancelledB : Booking :=
  { pendingB with status := .cancelled, cancelled_at := some 15,
                  cancellation_reason := some "changed my mind" }

/-
Claims.
-/

/-- C8: CanChat(booking) is true iff a delivery partner is assigned
(non-null) and the status is in {assigned, started, reached, collected};
in particular it is false whenever the status is pending, delivered, or
cancelled.  (Booking.can_chat, core/models.py.) -/
theorem c8_can_chat_iff (b : Booking) :
    (b.can_chat = true ↔
      (b.delivery_partner ≠ none ∧
        (b.status = .assigned ∨ b.status = .started ∨
         b.status = .reached ∨ b.status = .collected))) ∧
    ((b.status = .pending ∨ b.status = .delivered ∨ b.status = .cancelled) →
      b.can_chat = false) := by
  rcases b with ⟨c, dp, pa, da, cn, st, a1, a2, a3, a4, a5, a6, cr⟩
  cases dp <;> cases st <;> simp [Booking.can_chat]

/-- C8 witness: can_chat evaluated on a pending, an assigned and a
delivered booking through c8_can_chat_iff. -/
theorem c8_can_chat_iff_witness :
    pendingB.can_chat = false ∧ assignedB.can_chat = true ∧
    deliveredB.can_chat = false :=
  ⟨(c8_can_chat_iff pendingB).2 (Or.inl rfl),
   (c8_can_chat_iff assignedB).1.mpr ⟨by decide, Or.inl rfl⟩,
   (c8_can_chat_iff deliveredB).2 (Or.inr (Or.inl rfl))⟩

/-- C9: Cancel by any user who is not the booking's owning customer fails
with the access-denied message and returns the booking row and status log
unchanged, so status, cancelled_at, cancellation_reason and the log keep
their previous values.  (can_cancel_booking, core/helpers.py;
CancelBookingView.post, customer/views.py.) -/
theorem c9_cancel_not_owner (u : UserM) (b : Booking) (log : List LogEntry)
    (reason : String) (now : Nat) (h : u.id ≠ b.customer_id) :
    cancelBookingPost u b log reason now =
      ⟨b, log, some "You cannot cancel this booking"⟩ := by
  have hb : (b.customer_id != u.id) = true := by
    simp [bne_iff_ne]
    exact fun e => h e.symm
  simp [cancelBookingPost, can_cancel_booking, hb]

/-- C9 witness: the administrator (id 1) trying to cancel custU's pending
booking (customer_id 2) is rejected with no change. -/
theorem c9_cancel_not_owner_witness :
    cancelBookingPost adminU pendingB [⟨.pending, some 2, "Booking created"⟩]
      "spam" 20 =
      ⟨pendingB, [⟨.pending, some 2, "Booking created"⟩],
       some "You cannot cancel this booking"⟩ :=
  c9_cancel_not_owner adminU pendingB [⟨.pending, some 2, "Booking created"⟩]
    "spam" 20 (by decide)

/-- C4: for an authorized actor (can_update_booking_status true), the
update-status view accepts the caller-supplied target iff its stripped
value is one of started/reached/collected/delivered — pure set membership,
never the current status; on acceptance it sets the status to the target,
stamps the corresponding timestamp field with the current time, and
appends exactly one log entry carrying the stripped optional notes.
(UpdateBookingStatusView.post, delivery_partner/views.py.) -/
theorem c4_advance_membership (u : UserM) (b : Booking)
    (log : List LogEntry) (status_in notes_in : String) (now : Nat)
    (h : can_update_booking_status u b = true) :
    ((updateBookingStatusPost u b log status_in notes_in now).error = none ↔
      (pyStrip status_in = "started" ∨ pyStrip status_in = "reached" ∨
       pyStrip status_in = "collected" ∨ pyStrip status_in = "delivered")) ∧
    (pyStrip status_in = "started" →
      updateBookingStatusPost u b log status_in notes_in now =
        ⟨{ b with status := .started, started_at := some now },
         log ++ [⟨.started, some u.id, pyStrip notes_in⟩], none⟩) ∧
    (pyStrip status_in = "reached" →
      updateBookingStatusPost u b log status_in notes_in now =
        ⟨{ b with status := .reached, reached_at := some now },
         log ++ [⟨.reached, some u.id, pyStrip notes_in⟩], none⟩) ∧
    (pyStrip status_in = "collected" →
      updateBookingStatusPost u b log status_in notes_in now =
        ⟨{ b with status := .collected, collected_at := some now },
         log ++ [⟨.collected, some u.id, pyStrip notes_in⟩], none⟩) ∧
    (pyStrip status_in = "delivered" →
      updateBookingStatusPost u b log status_in notes_in now =
        ⟨{ b with status := .delivered, delivered_at := some now },
         log ++ [⟨.delivered, some u.id, pyStrip notes_in⟩], none⟩) := by
  unfold updateBookingStatusPost
  rw [h]
  simp only [Bool.not_true, Bool.false_eq_true, if_false]
  by_cases h1 : pyStrip status_in = "started"
  · simp [h1]
  · by_cases h2 : pyStrip status_in = "reached"
    · simp [h1, h2]
    · by_cases h3 : pyStrip status_in = "collected"
      · simp [h1, h2, h3]
      · by_cases h4 : pyStrip status_in = "delivered"
        · simp [h1, h2, h3, h4]
        · simp [h1, h2, h3, h4]

/-- C4 witness: the assigned delivery partner advances assignedB straight
to collected (membership check only — adjacency from assigned is not
required) and the view succeeds, stamps collected_at and logs the notes. -/
theorem c4_advance_membership_witness :
    can_update_booking_status partnerU assignedB = true ∧
    updateBookingStatusPost partnerU assignedB [] "collected" " got it " 42 =
      ⟨{ assignedB with status := .collected, collected_at := some 42 },
       [⟨.collected, some 3, "got it"⟩], none⟩ :=
  ⟨by decide,
   (c4_advance_membership partnerU assignedB [] "collected" " got it " 42
      (by decide)).2.2.2.1 (by decide)⟩

/-- C1 counterexample: deliveredB is terminal, yet AdvanceStatus by the
administrator with target "started" succeeds (no error) and moves the
status away from delivered, and Assign by the administrator succeeds as
well — the claim that every subsequent Assign/AdvanceStatus/Cancel fails
on a terminal booking is false for the code. -/
theorem c1_terminal_cex :
    deliveredB.status = .delivered ∧
    (updateBookingStatusPost adminU deliveredB [] "started" "" 50).error
      = none ∧
    (updateBookingStatusPost adminU deliveredB [] "started" "" 50).booking.status
      = .started ∧
    (assignBookingPost [partnerU] adminU deliveredB [] (some 3) 51).error
      = none := by
  refine ⟨rfl, ?_, ?_, rfl⟩ <;> decide

/-- C1 (amended): once a booking is delivered or cancelled, Cancel fails
and returns the booking and log unchanged; but Assign and AdvanceStatus
are not guarded by the terminal state — Assign succeeds whenever the
partner id resolves, and AdvanceStatus succeeds for any authorized actor
with a target in the valid set. -/
theorem c1_terminal_only_blocks_cancel (b : Booking) (log : List LogEntry)
    (hterm : b.status = .delivered ∨ b.status = .cancelled) :
    (∀ (u : UserM) (reason : String) (now : Nat),
      cancelBookingPost u b log reason now =
        ⟨b, log, some "You cannot cancel this booking"⟩) ∧
    (∀ (u : UserM) (notes_in : String) (now : Nat),
      can_update_booking_status u b = true →
      (updateBookingStatusPost u b log "started" notes_in now).error = none) ∧
    (∀ (users : List UserM) (u dp : UserM) (i : Nat) (now : Nat),
      users.find? (fun v => v.id == i && v.role == "delivery_partner")
        = some dp →
      (assignBookingPost users u b log (some i) now).error = none) := by
  refine ⟨?_, ?_, ?_⟩
  · intro u reason now
    have hc : can_cancel_booking u b = false := by
      rcases hterm with h | h <;> simp [can_cancel_booking, h]
    simp [cancelBookingPost, hc]
  · intro u notes_in now h
    unfold updateBookingStatusPost
    rw [h]
    have hs : pyStrip "started" = "started" := by decide
    simp [hs]
  · intro users u dp i now hfind
    simp [assignBookingPost, hfind]

/-- C1 witness: the amended statement instantiated on deliveredB — the
owning customer's cancel is rejected, the admin's advance to started is
accepted, and the admin's re-assign to partnerU is accepted. -/
theorem c1_terminal_only_blocks_cancel_witness :
    cancelBookingPost custU deliveredB [] "too late" 60 =
      ⟨deliveredB, [], some "You cannot cancel this booking"⟩ ∧
    (updateBookingStatusPost adminU deliveredB [] "started" "" 61).error
      = none ∧
    (assignBookingPost [partnerU] adminU deliveredB [] (some 3) 62).error
      = none :=
  ⟨(c1_terminal_only_blocks_cancel deliveredB [] (Or.inl rfl)).1
      custU "too late" 60,
   (c1_terminal_only_blocks_cancel deliveredB [] (Or.inl rfl)).2.1
      adminU "" 61 (by decide),
   (c1_terminal_only_blocks_cancel deliveredB [] (Or.inl rfl)).2.2
      [partnerU] adminU partnerU 3 62 (by decide)⟩

/-- C2 counterexample: assigning deliveredB (status delivered, not
pending) to inactivePartnerU (is_active false) succeeds — the view checks
neither the booking's current status nor the partner's active flag, so
"only while pending" and "active delivery-partner account" are both false
of the code. -/
theorem c2_assign_cex :
    deliveredB.status ≠ .pending ∧
    inactivePartnerU.is_active = false ∧
    (assignBookingPost [inactivePartnerU] adminU deliveredB []
        (some 4) 70).error = none ∧
    (assignBookingPost [inactivePartnerU] adminU deliveredB []
        (some 4) 70).booking.status = .assigned := by
  refine ⟨by decide, rfl, ?_, ?_⟩ <;> decide

/-- C2 (amended): Assign succeeds whenever a partner id is supplied and
resolves to a user row with the delivery-partner role — regardless of the
booking's current status and of the account's is_active flag; on success
it sets the partner, sets status to assigned, stamps assigned_at and
appends one log entry; a missing id or one that does not resolve is a
no-op surfaced as an error.  (AssignBookingView.post,
administrator/views.py.) -/
theorem c2_assign_behaviour (users : List UserM) (u : UserM) (b : Booking)
    (log : List LogEntry) (now : Nat) :
    (assignBookingPost users u b log none now =
      ⟨b, log, some "Please select a delivery partner"⟩) ∧
    (∀ i : Nat,
      users.find? (fun v => v.id == i && v.role == "delivery_partner")
          = none →
      assignBookingPost users u b log (some i) now =
        ⟨b, log, some "Http404"⟩) ∧
    (∀ (i : Nat) (dp : UserM),
      users.find? (fun v => v.id == i && v.role == "delivery_partner")
          = some dp →
      assignBookingPost users u b log (some i) now =
        ⟨{ b with delivery_partner := some dp.id, status := .assigned,
                  assigned_at := some now },
         log ++ [⟨.assigned, some u.id, "Assigned to " ++ dp.get_full_name⟩],
         none⟩) := by
  refine ⟨rfl, ?_, ?_⟩
  · intro i hfind
    simp [assignBookingPost, hfind]
  · intro i dp hfind
    simp [assignBookingPost, hfind]

/-- C2 witness: no id, an unresolvable id, and a resolving id against a
one-row user table holding partnerU. -/
theorem c2_assign_behaviour_witness :
    assignBookingPost [partnerU] adminU pendingB [] none 71 =
      ⟨pendingB, [], some "Please select a delivery partner"⟩ ∧
    assignBookingPost [partnerU] adminU pendingB [] (some 9) 71 =
      ⟨pendingB, [], some "Http404"⟩ ∧
    assignBookingPost [partnerU] adminU pendingB [] (some 3) 71 =
      ⟨{ pendingB with delivery_partner := some 3, status := .assigned,
                       assigned_at := some 71 },
       [⟨.assigned, some 1, "Assigned to Del Part"⟩], none⟩ :=
  ⟨(c2_assign_behaviour [partnerU] adminU pendingB [] 71).1,
   (c2_assign_behaviour [partnerU] adminU pendingB [] 71).2.1 9 (by decide),
   (c2_assign_behaviour [partnerU] adminU pendingB [] 71).2.2 3 partnerU
     (by decide)⟩

/-- C3 counterexample: the owning customer cancels the pending booking
(delivery_partner null); the cancel succeeds, leaving a booking whose
status is cancelled — not pending — with a null delivery partner, so the
claimed invariant is violated by a single Cancel. -/
theorem c3_null_partner_cex :
    (cancelBookingPost custU pendingB [] "changed my mind" 80).error
      = none ∧
    (cancelBookingPost custU pendingB [] "changed my mind" 80).booking.status
      ≠ .pending ∧
    (cancelBookingPost custU pendingB [] "changed my mind" 80).booking.delivery_partner
      = none := by
  refine ⟨?_, by decide, ?_⟩ <;> decide

/-- A booking whose status is assigned has a non-null delivery partner —
the part of the C3 invariant the code does maintain. -/
def assignedHasPartner (b : Booking) : Prop :=
  b.status = .assigned → b.delivery_partner ≠ none

instance (b : Booking) : Decidable (assignedHasPartner b) := by
  unfold assignedHasPartner
  infer_instance

/-- C3 (amended): the invariant "delivery_partner null implies pending"
fails — cancelling a pending booking yields a cancelled booking with a
null partner, and an administrator can advance an unassigned booking —
but every operation does preserve the weaker invariant that a booking
with status assigned has a non-null delivery partner (Create establishes
it, and Assign, AdvanceStatus and Cancel preserve it). -/
theorem c3_assigned_has_partner (u : UserM) (b : Booking)
    (log : List LogEntry) (hb : assignedHasPartner b) :
    (∀ (pickup delivery notes : String) (b0 : Booking) (e : LogEntry),
      createBookingPost u pickup delivery notes = some (b0, e) →
      assignedHasPartner b0) ∧
    (∀ (users : List UserM) (dpid : Option Nat) (now : Nat),
      assignedHasPartner (assignBookingPost users u b log dpid now).booking) ∧
    (∀ (status_in notes_in : String) (now : Nat),
      assignedHasPartner
        (updateBookingStatusPost u b log status_in notes_in now).booking) ∧
    (∀ (reason : String) (now : Nat),
      assignedHasPartner (cancelBookingPost u b log reason now).booking) := by
  refine ⟨?_, ?_, ?_, ?_⟩
  · intro pickup delivery notes b0 e hcreate
    unfold createBookingPost at hcreate
    by_cases hempty :
        (pyStrip pickup == "" || pyStrip delivery == "") = true
    · rw [if_pos hempty] at hcreate
      exact absurd hcreate (by simp)
    · rw [if_neg (by simpa using hempty)] at hcreate
      simp only [Option.some.injEq, Prod.mk.injEq] at hcreate
      intro hst
      rw [← hcreate.1] at hst
      simp at hst
  · intro users dpid now
    cases dpid with
    | none => simpa [assignBookingPost] using hb
    | some i =>
      cases hfind : users.find?
          (fun v => v.id == i && v.role == "delivery_partner") with
      | none => simpa [assignBookingPost, hfind] using hb
      | some dp => simp [assignBookingPost, hfind, assignedHasPartner]
  · intro status_in notes_in now
    by_cases h : can_update_booking_status u b = true
    · unfold updateBookingStatusPost
      rw [h]
      simp only [Bool.not_true, Bool.false_eq_true, if_false]
      by_cases h1 : pyStrip status_in = "started"
      · simp [h1, assignedHasPartner]
      · by_cases h2 : pyStrip status_in = "reached"
        · simp [h1, h2, assignedHasPartner]
        · by_cases h3 : pyStrip status_in = "collected"
          · simp [h1, h2, h3, assignedHasPartner]
          · by_cases h4 : pyStrip status_in = "delivered"
            · simp [h1, h2, h3, h4, assignedHasPartner]
            · simpa [h1, h2, h3, h4] using hb
    · have h' : can_update_booking_status u b = false := by
        revert h
        cases can_update_booking_status u b <;> simp
      simpa [updateBookingStatusPost, h'] using hb
  · intro reason now
    by_cases h : can_cancel_booking u b = true
    · simp [cancelBookingPost, h, assignedHasPartner]
    · have h' : can_cancel_booking u b = false := by
        revert h
        cases can_cancel_booking u b <;> simp
      simpa [cancelBookingPost, h'] using hb

/-- C3 witness: the preservation statement instantiated on custU and the
freshly created pendingB, checked on a create, an assign, an advance and
a cancel at concrete inputs. -/
theorem c3_assigned_has_partner_witness :
    assignedHasPartner pendingB ∧
    assignedHasPartner
      (assignBookingPost [partnerU] custU pendingB [] (some 3) 81).booking ∧
    assignedHasPartner
      (updateBookingStatusPost custU pendingB [] "started" "" 82).booking ∧
    assignedHasPartner
      (cancelBookingPost custU pendingB [] "no need" 83).booking :=
  ⟨by decide,
   (c3_assigned_has_partner custU pendingB [] (by decide)).2.1
     [partnerU] (some 3) 81,
   (c3_assigned_has_partner custU pendingB [] (by decide)).2.2.1
     "started" "" 82,
   (c3_assigned_has_partner custU pendingB [] (by decide)).2.2.2
     "no need" 83⟩

/-- With no stored code, verify_otp fails with the expired/not-found
message and leaves the cache slice untouched. -/
theorem verify_otp_no_code (s : OtpState) (hc : s.code = none)
    (x : String) :
    verify_otp s x =
      (⟨false, "OTP expired or not found. Please request a new OTP.", 0⟩, s) := by
  unfold verify_otp
  rw [hc]

/-- With no stored code, no run of verify_otp calls ever succeeds. -/
theorem no_code_never_verifies (s : OtpState) (hc : s.code = none) :
    ∀ xs : List String, anyVerifySucceeds s xs = false := by
  intro xs
  induction xs with
  | nil => rfl
  | cons x xs ih =>
    unfold anyVerifySucceeds
    rw [verify_otp_no_code s hc x]
    simpa using ih

/-- C5: in any cache state holding a code with the attempt counter at (or
beyond) 3, the next verify_otp call fails with the max-attempts message no
matter what code is submitted — even the correct one — and afterwards no
run of further verify_otp calls can succeed until a new code is issued.
(OTPManager.verify_otp, core/utils/otp_manager.py.) -/
theorem c5_lockout_after_three (s : OtpState) (stored : String × Nat)
    (x : String) (hc : s.code = some stored)
    (ha : MAX_ATTEMPTS ≤ (s.attempts.map Prod.fst).getD 0) :
    (verify_otp s x).1.success = false ∧
    (verify_otp s x).1.message =
      "Maximum verification attempts exceeded. Please request a new OTP." ∧
    ∀ xs : List String, anyVerifySucceeds (verify_otp s x).2 xs = false := by
  have hv : verify_otp s x =
      (⟨false,
        "Maximum verification attempts exceeded. Please request a new OTP.", 0⟩,
       { s with code := none, attempts := none }) := by
    unfold verify_otp
    rw [hc]
    simp only [ge_iff_le, ha, if_pos]
  rw [hv]
  exact ⟨rfl, rfl, no_code_never_verifies _ rfl⟩

/-- C5 witness: the state after three wrong attempts on code 1234; the
fourth call submits the correct 1234 and is still rejected, and the two
calls after that (correct code again, then another value) fail too. -/
theorem c5_lockout_after_three_witness :
    (verify_otp ⟨some ("1234", 300), some (3, 300), none⟩ "1234").1.success
      = false ∧
    (verify_otp ⟨some ("1234", 300), some (3, 300), none⟩ "1234").1.message
      = "Maximum verification attempts exceeded. Please request a new OTP." ∧
    anyVerifySucceeds
      (verify_otp ⟨some ("1234", 300), some (3, 300), none⟩ "1234").2
      ["1234", "0000"] = false :=
  ⟨(c5_lockout_after_three ⟨some ("1234", 300), some (3, 300), none⟩
      ("1234", 300) "1234" rfl (by decide)).1,
   (c5_lockout_after_three ⟨some ("1234", 300), some (3, 300), none⟩
      ("1234", 300) "1234" rfl (by decide)).2.1,
   (c5_lockout_after_three ⟨some ("1234", 300), some (3, 300), none⟩
      ("1234", 300) "1234" rfl (by decide)).2.2 ["1234", "0000"]⟩

/-- C6 counterexample: issue a code (debug config, so 1234), submit three
wrong codes, and the code is still live in the store with the attempt
counter at 3; the next verify_otp with the exactly matching "1234" is
rejected (max-attempts), so "a live stored code plus a matching
submission always succeeds" is false for the code. -/
theorem c6_correct_code_cex :
    (let s1 := (create_otp otpEmpty true "5678").2
     let s2 := (verify_otp s1 "0000").2
     let s3 := (verify_otp s2 "0000").2
     let s4 := (verify_otp s3 "0000").2
     s4.code = some ("1234", 300) ∧
     (verify_otp s4 "1234").1.success = false ∧
     (verify_otp s4 "1234").1.message =
       "Maximum verification attempts exceeded. Please request a new OTP.") := by
  decide

/-- C6 (amended): for a live stored code with fewer than 3 recorded
attempts, a submission equal to the stored code after whitespace trimming
succeeds, sets the verified flag with a 600-second expiry, and deletes the
code and attempts sub-keys; an immediate replay of the same correct code
therefore fails with the expired/not-found message.
(OTPManager.verify_otp, core/utils/otp_manager.py.) -/
theorem c6_correct_code_verifies (s : OtpState) (stored : String × Nat)
    (submitted : String) (hc : s.code = some stored)
    (ha : (s.attempts.map Prod.fst).getD 0 < MAX_ATTEMPTS)
    (hm : pyStrip submitted = pyStrip stored.1) :
    (verify_otp s submitted).1.success = true ∧
    (verify_otp s submitted).1.message = "OTP verified successfully" ∧
    (verify_otp s submitted).2.verified = some (true, 600) ∧
    (verify_otp s submitted).2.code = none ∧
    (verify_otp s submitted).2.attempts = none ∧
    ∀ y : String,
      (verify_otp (verify_otp s submitted).2 y).1.success = false ∧
      (verify_otp (verify_otp s submitted).2 y).1.message =
        "OTP expired or not found. Please request a new OTP." := by
  obtain ⟨sv, st⟩ := stored
  have hv : verify_otp s submitted =
      (⟨true, "OTP verified successfully", MAX_ATTEMPTS⟩,
       { s with code := none, attempts := none,
                verified := some (true, 600) }) := by
    simp [verify_otp, hc, not_le.mpr ha, hm]
  rw [hv]
  refine ⟨rfl, rfl, rfl, rfl, rfl, ?_⟩
  intro y
  rw [verify_otp_no_code _ rfl y]
  exact ⟨rfl, rfl⟩

/-- C6 witness: a freshly issued code 1234 with no attempts yet; the
padded submission " 1234 " matches after trimming, verification succeeds,
and the replay of "1234" fails as expired/not found. -/
theorem c6_correct_code_verifies_witness :
    (verify_otp ⟨some ("1234", 300), none, none⟩ " 1234 ").1.success
      = true ∧
    (verify_otp ⟨some ("1234", 300), none, none⟩ " 1234 ").2.verified
      = some (true, 600) ∧
    (verify_otp (verify_otp ⟨some ("1234", 300), none, none⟩ " 1234 ").2
       "1234").1.message =
      "OTP expired or not found. Please request a new OTP." :=
  ⟨(c6_correct_code_verifies ⟨some ("1234", 300), none, none⟩ ("1234", 300)
      " 1234 " rfl (by decide) (by decide)).1,
   (c6_correct_code_verifies ⟨some ("1234", 300), none, none⟩ ("1234", 300)
      " 1234 " rfl (by decide) (by decide)).2.2.1,
   ((c6_correct_code_verifies ⟨some ("1234", 300), none, none⟩ ("1234", 300)
      " 1234 " rfl (by decide) (by decide)).2.2.2.2.2 "1234").2⟩

/-- C7 counterexample: in the non-production configuration (DEBUG on) the
issued code is the fixed 1234, not the value drawn from the random digit
source — IssueCode on a number with no live code returns 1234 even when
the random draw was 5678. -/
theorem c7_debug_code_cex :
    (create_otp otpEmpty true "5678").1.otp = some "1234" ∧
    (create_otp otpEmpty true "5678").1.otp ≠ some "5678" ∧
    (create_otp otpEmpty true "5678").2.code = some ("1234", 300) := by
  refine ⟨rfl, by decide, rfl⟩

/-- C7 (amended): IssueCode for a mobile number with no live code
succeeds and stores the code with a 300-second time-to-live, clearing the
attempts and verified sub-keys; in the non-production (DEBUG)
configuration the code is the fixed "1234", and only in the production
configuration is it the randomly drawn 4-digit string.
(OTPManager.generate_otp / create_otp, core/utils/otp_manager.py.) -/
theorem c7_issue_fresh_code (s : OtpState) (rand : String)
    (hc : s.code = none) :
    create_otp s true rand =
      (⟨true, some "1234", "OTP generated successfully", 300⟩,
       ⟨some ("1234", 300), none, none⟩) ∧
    create_otp s false rand =
      (⟨true, some rand, "OTP generated successfully", 300⟩,
       ⟨some (rand, 300), none, none⟩) := by
  constructor <;> (unfold create_otp; rw [hc]; rfl)

/-- C7 witness: issuing on the empty cache slice with random draw 5678,
in the debug and in the production configuration. -/
theorem c7_issue_fresh_code_witness :
    create_otp otpEmpty true "5678" =
      (⟨true, some "1234", "OTP generated successfully", 300⟩,
       ⟨some ("1234", 300), none, none⟩) ∧
    create_otp otpEmpty false "5678" =
      (⟨true, some "5678", "OTP generated successfully", 300⟩,
       ⟨some ("5678", 300), none, none⟩) :=
  c7_issue_fresh_code otpEmpty "5678" rfl

/-- C10: when verify_otp rejects with the max-attempts message it also
deletes the code and attempts sub-keys, so the immediately following
verify_otp for the same number returns the expired/not-found failure
rather than the max-attempts one, and the immediately following IssueCode
succeeds instead of failing with already-sent.
(OTPManager.verify_otp / create_otp, core/utils/otp_manager.py.) -/
theorem c10_max_attempts_clears_state (s : OtpState)
    (stored : String × Nat) (x : String) (hc : s.code = some stored)
    (ha : MAX_ATTEMPTS ≤ (s.attempts.map Prod.fst).getD 0) :
    (verify_otp s x).1.message =
      "Maximum verification attempts exceeded. Please request a new OTP." ∧
    (verify_otp s x).2.code = none ∧
    (verify_otp s x).2.attempts = none ∧
    (∀ y : String,
      (verify_otp (verify_otp s x).2 y).1.message =
        "OTP expired or not found. Please request a new OTP.") ∧
    (∀ (debug : Bool) (rand : String),
      (create_otp (verify_otp s x).2 debug rand).1.success = true ∧
      (create_otp (verify_otp s x).2 debug rand).1.message =
        "OTP generated successfully") := by
  have hv : verify_otp s x =
      (⟨false,
        "Maximum verification attempts exceeded. Please request a new OTP.", 0⟩,
       { s with code := none, attempts := none }) := by
    unfold verify_otp
    rw [hc]
    simp only [ge_iff_le, ha, if_pos]
  rw [hv]
  refine ⟨rfl, rfl, rfl, ?_, ?_⟩
  · intro y
    rw [verify_otp_no_code _ rfl y]
  · intro debug rand
    constructor <;> (unfold create_otp; rfl)

/-- C10 witness: the locked-out state on code 1234 (3 recorded attempts);
the max-attempts rejection clears both sub-keys, the follow-up verify of
"1234" reports expired/not found, and a follow-up issue in debug config
succeeds. -/
theorem c10_max_attempts_clears_state_witness :
    (verify_otp ⟨some ("1234", 300), some (3, 300), none⟩ "9999").2.code
      = none ∧
    (verify_otp ⟨some ("1234", 300), some (3, 300), none⟩ "9999").2.attempts
      = none ∧
    (verify_otp
       (verify_otp ⟨some ("1234", 300), some (3, 300), none⟩ "9999").2
       "1234").1.message =
      "OTP expired or not found. Please request a new OTP." ∧
    (create_otp
       (verify_otp ⟨some ("1234", 300), some (3, 300), none⟩ "9999").2
       true "5678").1.success = true :=
  ⟨(c10_max_attempts_clears_state ⟨some ("1234", 300), some (3, 300), none⟩
      ("1234", 300) "9999" rfl (by decide)).2.1,
   (c10_max_attempts_clears_state ⟨some ("1234", 300), some (3, 300), none⟩
      ("1234", 300) "9999" rfl (by decide)).2.2.1,
   (c10_max_attempts_clears_state ⟨some ("1234", 300), some (3, 300), none⟩
      ("1234", 300) "9999" rfl (by decide)).2.2.2.1 "1234",
   ((c10_max_attempts_clears_state ⟨some ("1234", 300), some (3, 300), none⟩
      ("1234", 300) "9999" rfl (by decide)).2.2.2.2 true "5678").1⟩
